import Mathlib

/-!
# Verification of the bank-alert matching core

Shallow embedding of `src/services/transaction-matcher.ts` (the
`TransactionMatcher` scorer and the `BankAlertParser` extractor) of the
`telex-bank-alert-agent` repository, with the data contracts from
`src/index.ts`.

Modelling conventions:
* JS `number` amounts and scores are modelled as `Rat` in the scorer
  (which only performs field arithmetic); in the parser, where
  `parseFloat` can produce `NaN` or overflow to `Infinity`, the result
  is a `JSNumber` (`nan`, `inf`, or an exact rational; the overflow
  threshold `2^1024 - 2^970` of double rounding is modelled exactly).
* The `BANK_PATTERNS[bank]` property access is modelled with the
  `Object.prototype` chain (`jsBankPatternsLookup`), and `parseEmailJS`
  captures the `TypeError` raised when an inherited prototype name
  selects a truthy non-profile.
* JS `Date` values inside the scorer are modelled as epoch-millisecond
  integers (`toTimestamp` in the source converts every input to such a
  number); in the parser a `Date` is modelled by the constructor that
  produced it (`new Date(string)` vs `new Date()` = wall clock).
* JS `Array.prototype.sort` is stable (ES2019), modelled by
  `List.mergeSort`.
-/

namespace BankAgent

/-- `BankAlert` from `src/index.ts` (timestamp as epoch milliseconds). -/
structure BankAlert where
  id : String
  timestamp : Int
  amount : Rat
  currency : String
  accountNumber : String
  description : String
  transactionType : String
  rawEmail : String
  bank : String
deriving DecidableEq, Repr

/-- `Transaction` from `src/index.ts` (timestamp as epoch milliseconds). -/
structure Transaction where
  id : String
  timestamp : Int
  amount : Rat
  currency : String
  accountNumber : String
  description : String
  status : String
  source : String
deriving DecidableEq, Repr

/-- `MatchDetails` from `src/index.ts`. -/
structure MatchDetails where
  amountMatch : Bool
  amountDifference : Rat
  timeWindow : Int
  descriptionSimilarity : Rat
deriving DecidableEq, Repr

/-- `MatchResult` from `src/index.ts`; `transactionId : string | null`
is `Option String`. -/
structure MatchResult where
  alertId : String
  transactionId : Option String
  confidence : Rat
  matchDetails : MatchDetails
  matched : Bool
deriving DecidableEq, Repr

/-- `TIME_WINDOW_MS = 15 * 60 * 1000`. -/
def TIME_WINDOW_MS : Int := 15 * 60 * 1000

/-- `AMOUNT_TOLERANCE = 0.02`. -/
def AMOUNT_TOLERANCE : Rat := 0.02

/-- `MIN_CONFIDENCE_THRESHOLD = 0.6`. -/
def MIN_CONFIDENCE_THRESHOLD : Rat := 0.6

/-- One row-update step of `levenshteinDistance`'s single-array dynamic
programming loop (the inner `j` loop for one character `c1` of `s1`):
given the remaining characters of `s2`, the corresponding suffix of the
previous row `costs`, and the running `lastValue`, it produces the
matching suffix of the new row.  `newValue = costs[j-1]`, bumped by
`min(min(newValue, lastValue), costs[j]) + 1` when the characters
differ; the trailing write `costs[s2.length] = lastValue` is the final
singleton. -/
def levRowAux (c1 : Char) : List Char → List Nat → Nat → List Nat
  | [], _, last => [last]
  | _ :: _, [], last => [last]
  | c2 :: cs, p0 :: rest, last =>
      last :: levRowAux c1 cs rest
        (if c1 = c2 then p0 else min (min p0 last) (rest.headD 0) + 1)

/-- `TransactionMatcher.levenshteinDistance(s1, s2)`: the row `i = 0` is
`costs[j] = j`; each character of `s1` rewrites the row with `lastValue`
starting at `i` (= previous `costs[0] + 1`); the result is
`costs[s2.length]`. -/
def levenshteinDistance (s1 s2 : String) : Nat :=
  let l2 := s2.data
  let finalRow := s1.data.foldl
    (fun prev c1 => levRowAux c1 l2 prev (prev.headD 0 + 1))
    (List.range (l2.length + 1))
  finalRow.getD l2.length 0

/-- `String.prototype.toLowerCase`, character-wise. -/
def toLowerStr (s : String) : String := String.mk (s.data.map Char.toLower)

/-- `String.prototype.trim`: strip whitespace from both ends. -/
def trimStr (s : String) : String :=
  String.mk (((s.data.dropWhile Char.isWhitespace).reverse.dropWhile
    Char.isWhitespace).reverse)

/-- `TransactionMatcher.calculateSimilarity`: lowercase + trim both,
identical strings score 1, an empty side scores 0, otherwise
`(longer.length - editDistance) / longer.length`. -/
def calculateSimilarity (str1 str2 : String) : Rat :=
  let s1 := trimStr (toLowerStr str1)
  let s2 := trimStr (toLowerStr str2)
  if s1 = s2 then 1
  else if s1.length = 0 ∨ s2.length = 0 then 0
  else
    let longer := if s1.length > s2.length then s1 else s2
    let shorter := if s1.length > s2.length then s2 else s1
    let editDistance := levenshteinDistance shorter longer
    ((longer.length : Rat) - editDistance) / longer.length

/-- `timeDiff` in `scoreMatch`: `Math.abs(toTimestamp(alert.timestamp) -
toTimestamp(txn.timestamp))` (timestamps already in epoch ms). -/
def timeDiff (alert : BankAlert) (txn : Transaction) : Int :=
  |alert.timestamp - txn.timestamp|

/-- `isWithinTimeWindow` in `scoreMatch`. -/
def isWithinTimeWindow (alert : BankAlert) (txn : Transaction) : Bool :=
  timeDiff alert txn ≤ TIME_WINDOW_MS

/-- `amountDiff` in `scoreMatch`. -/
def amountDiff (alert : BankAlert) (txn : Transaction) : Rat :=
  |alert.amount - txn.amount|

/-- `amountDiffPercent` in `scoreMatch`: `alert.amount > 0 ?
amountDiff / alert.amount : 0`. -/
def amountDiffPercent (alert : BankAlert) (txn : Transaction) : Rat :=
  if alert.amount > 0 then amountDiff alert txn / alert.amount else 0

/-- `amountMatches` in `scoreMatch`. -/
def amountMatches (alert : BankAlert) (txn : Transaction) : Bool :=
  amountDiffPercent alert txn ≤ AMOUNT_TOLERANCE

/-- `accountMatches` in `scoreMatch`: plain string equality. -/
def accountMatches (alert : BankAlert) (txn : Transaction) : Bool :=
  alert.accountNumber = txn.accountNumber

/-- `confidence` in `scoreMatch`: starts at `0`, adds `0.4` for amount,
`0.3` for account, `0.2` for time, plus `descriptionSimilarity * 0.1`. -/
def confidence (alert : BankAlert) (txn : Transaction) : Rat :=
  (if amountMatches alert txn then (0.4 : Rat) else 0)
    + (if accountMatches alert txn then (0.3 : Rat) else 0)
    + (if isWithinTimeWindow alert txn then (0.2 : Rat) else 0)
    + calculateSimilarity alert.description txn.description * 0.1

/-- `TransactionMatcher.scoreMatch`. -/
def scoreMatch (alert : BankAlert) (txn : Transaction) : MatchResult :=
  let matched := confidence alert txn ≥ MIN_CONFIDENCE_THRESHOLD
  { alertId := alert.id
    transactionId := if matched then some txn.id else none
    confidence := confidence alert txn
    matchDetails :=
      { amountMatch := amountMatches alert txn
        amountDifference := amountDiff alert txn
        timeWindow := timeDiff alert txn
        descriptionSimilarity :=
          calculateSimilarity alert.description txn.description }
    matched := matched }

/-- `TransactionMatcher.findMatches`: map `scoreMatch` over the
candidates and sort by `(a, b) => b.confidence - a.confidence`
(descending by confidence, stable). -/
def findMatches (alert : BankAlert) (transactions : List Transaction) :
    List MatchResult :=
  (transactions.map (fun txn => scoreMatch alert txn)).mergeSort
    (fun a b => b.confidence ≤ a.confidence)

/-! ## `BankAlertParser` (`src/services/bank-parser` part of the matcher file)

The bank regexes are embedded as executable matchers over `List Char`.
A pattern is a match-at-position function returning capture group 1;
`String.prototype.match` is `scanFirst`, which tries every start
position left to right.  Greedy quantifiers with backtracking are
modelled by lists of candidate remainders in preference order. -/

/-- `email.match(pattern)`: try the pattern at each position, leftmost
match wins; a JS regex also tries the empty position at the end. -/
def scanFirst (p : List Char → Option (List Char)) :
    List Char → Option (List Char)
  | [] => p []
  | l@(_ :: rest) =>
      match p l with
      | some g => some g
      | none => scanFirst p rest

/-- Case-insensitive literal (the `/i` flag): consume `pat` (given in
lowercase) from the head of `s`. -/
def stripPrefixCI : List Char → List Char → Option (List Char)
  | [], s => some s
  | _ :: _, [] => none
  | p :: ps, c :: cs => if c.toLower = p then stripPrefixCI ps cs else none

/-- `[\d,]+\.?\d*` (capture): at least one digit-or-comma, then an
optional dot with trailing digits, all greedy.  Returns the captured
characters. -/
def amountGroup (s : List Char) : Option (List Char) :=
  let ds := s.takeWhile fun c => c.isDigit || c = ','
  if ds = [] then none
  else
    match s.drop ds.length with
    | '.' :: rest => some (ds ++ '.' :: rest.takeWhile Char.isDigit)
    | _ => some ds

/-- `₦?`: optionally consume a Naira sign. -/
def optNaira (s : List Char) : List Char :=
  if s.headD ' ' = '₦' then s.tail else s

/-- `/Amount:\s*₦?([\d,]+\.?\d*)/i` at one position. -/
def gtbankAmountAt (s : List Char) : Option (List Char) :=
  (stripPrefixCI "amount:".data s).bind fun s1 =>
    amountGroup (optNaira (s1.dropWhile Char.isWhitespace))

/-- `/NGN\s*([\d,]+\.?\d*)/i` at one position. -/
def accessAmountAt (s : List Char) : Option (List Char) :=
  (stripPrefixCI "ngn".data s).bind fun s1 =>
    amountGroup (s1.dropWhile Char.isWhitespace)

/-- `\s*[:=]\s*`: optional spaces, a colon or equals sign, optional
spaces. -/
def colonOrEq (s : List Char) : Option (List Char) :=
  match s.dropWhile Char.isWhitespace with
  | c :: rest =>
      if c = ':' || c = '=' then some (rest.dropWhile Char.isWhitespace)
      else none
  | [] => none

/-- `/Amount\s*[:=]\s*₦?([\d,]+\.?\d*)/i` at one position. -/
def firstbankAmountAt (s : List Char) : Option (List Char) :=
  (stripPrefixCI "amount".data s).bind fun s1 =>
    (colonOrEq s1).bind fun s2 => amountGroup (optNaira s2)

/-- Keyword alternation such as
`/(debit|credit|withdrawal|transfer|payment)/i` at one position:
alternatives are tried in pattern order, the captured text is the slice
of the input (original case). -/
def typeAt (kws : List String) (s : List Char) : Option (List Char) :=
  kws.findSome? fun kw =>
    if (stripPrefixCI kw.data s).isSome then some (s.take kw.length)
    else none

/-- Exactly `n` characters of class `p` (candidate remainders). -/
def pCount (p : Char → Bool) : Nat → List Char → List (List Char)
  | 0, s => [s]
  | n + 1, x :: rest => if p x then pCount p n rest else []
  | _ + 1, [] => []

/-- `p{lo,hi}` greedy: candidate remainders, longest first. -/
def pRange (p : Char → Bool) (lo hi : Nat) (s : List Char) :
    List (List Char) :=
  (List.range (hi + 1 - lo)).flatMap fun k => pCount p (hi - k) s

/-- `p+` greedy: candidate remainders, longest first. -/
def pPlus (p : Char → Bool) (s : List Char) : List (List Char) :=
  let w := (s.takeWhile p).length
  (List.range w).map fun k => s.drop (w - k)

/-- A single literal character. -/
def pChar (c : Char) : List Char → List (List Char)
  | x :: rest => if x = c then [rest] else []
  | [] => []

/-- Turn the preferred surviving remainder into the matched slice of
`s`. -/
def sliceOfRemainders (s : List Char) (rs : List (List Char)) :
    Option (List Char) :=
  rs.head?.map fun r => s.take (s.length - r.length)

/-- `/(\d{1,2}\/\d{1,2}\/\d{4}\s+\d{1,2}:\d{2}:\d{2})/` at one
position. -/
def gtbankTimeAt (s : List Char) : Option (List Char) :=
  let rs := pRange Char.isDigit 1 2 s
  let rs := rs.flatMap (pChar '/')
  let rs := rs.flatMap (pRange Char.isDigit 1 2)
  let rs := rs.flatMap (pChar '/')
  let rs := rs.flatMap (pCount Char.isDigit 4)
  let rs := rs.flatMap (pPlus Char.isWhitespace)
  let rs := rs.flatMap (pRange Char.isDigit 1 2)
  let rs := rs.flatMap (pChar ':')
  let rs := rs.flatMap (pCount Char.isDigit 2)
  let rs := rs.flatMap (pChar ':')
  let rs := rs.flatMap (pCount Char.isDigit 2)
  sliceOfRemainders s rs

/-- `\w` of JS regexes. -/
def isWordChar (c : Char) : Bool := c.isAlphanum || c = '_'

/-- `/(\d{2}-\w{3}-\d{4}\s+\d{2}:\d{2}:\d{2})/` at one position. -/
def accessTimeAt (s : List Char) : Option (List Char) :=
  let rs := pCount Char.isDigit 2 s
  let rs := rs.flatMap (pChar '-')
  let rs := rs.flatMap (pCount isWordChar 3)
  let rs := rs.flatMap (pChar '-')
  let rs := rs.flatMap (pCount Char.isDigit 4)
  let rs := rs.flatMap (pPlus Char.isWhitespace)
  let rs := rs.flatMap (pCount Char.isDigit 2)
  let rs := rs.flatMap (pChar ':')
  let rs := rs.flatMap (pCount Char.isDigit 2)
  let rs := rs.flatMap (pChar ':')
  let rs := rs.flatMap (pCount Char.isDigit 2)
  sliceOfRemainders s rs

/-- `/(\d{2}\/\d{2}\/\d{4}\s+\d{2}:\d{2})/` at one position. -/
def firstbankTimeAt (s : List Char) : Option (List Char) :=
  let rs := pCount Char.isDigit 2 s
  let rs := rs.flatMap (pChar '/')
  let rs := rs.flatMap (pCount Char.isDigit 2)
  let rs := rs.flatMap (pChar '/')
  let rs := rs.flatMap (pCount Char.isDigit 4)
  let rs := rs.flatMap (pPlus Char.isWhitespace)
  let rs := rs.flatMap (pCount Char.isDigit 2)
  let rs := rs.flatMap (pChar ':')
  let rs := rs.flatMap (pCount Char.isDigit 2)
  sliceOfRemainders s rs

/-- Capture group `(\*{2,4}\d{4,10})`: 2-4 asterisks then 4-10 digits,
greedy. -/
def accountGroup (s : List Char) : Option (List Char) :=
  let rs := pRange (fun c => c = '*') 2 4 s
  let rs := rs.flatMap (pRange Char.isDigit 4 10)
  sliceOfRemainders s rs

/-- `/Account:\s*(\*{2,4}\d{4,10})/i` at one position. -/
def gtbankAccountAt (s : List Char) : Option (List Char) :=
  (stripPrefixCI "account:".data s).bind fun s1 =>
    accountGroup (s1.dropWhile Char.isWhitespace)

/-- `/A\/C:\s*(\*{2,4}\d{4,10})/i` at one position. -/
def accessAccountAt (s : List Char) : Option (List Char) :=
  (stripPrefixCI "a/c:".data s).bind fun s1 =>
    accountGroup (s1.dropWhile Char.isWhitespace)

/-- `/Account\s*[:=]\s*(\*{2,4}\d{4,10})/i` at one position. -/
def firstbankAccountAt (s : List Char) : Option (List Char) :=
  (stripPrefixCI "account".data s).bind fun s1 =>
    (colonOrEq s1).bind accountGroup

/-- One entry of `BANK_PATTERNS`. -/
structure BankPatterns where
  amountPattern : List Char → Option (List Char)
  typePattern : List Char → Option (List Char)
  timePattern : List Char → Option (List Char)
  accountPattern : List Char → Option (List Char)

/-- `BANK_PATTERNS.gtbank`. -/
def gtbankPatterns : BankPatterns where
  amountPattern := gtbankAmountAt
  typePattern := typeAt ["debit", "credit", "withdrawal", "transfer", "payment"]
  timePattern := gtbankTimeAt
  accountPattern := gtbankAccountAt

/-- `BANK_PATTERNS.access` (same keyword alternation up to case; the
pattern carries the `/i` flag). -/
def accessPatterns : BankPatterns where
  amountPattern := accessAmountAt
  typePattern := typeAt ["debit", "credit", "withdrawal", "transfer", "payment"]
  timePattern := accessTimeAt
  accountPattern := accessAccountAt

/-- `BANK_PATTERNS.firstbank`. -/
def firstbankPatterns : BankPatterns where
  amountPattern := firstbankAmountAt
  typePattern := typeAt ["debit", "credit"]
  timePattern := firstbankTimeAt
  accountPattern := firstbankAccountAt

/-- `BANK_PATTERNS[bank]`: name lookup, case-sensitive. -/
def BANK_PATTERNS (bank : String) : Option BankPatterns :=
  if bank = "gtbank" then some gtbankPatterns
  else if bank = "access" then some accessPatterns
  else if bank = "firstbank" then some firstbankPatterns
  else none

/-- Digit run to a natural number. -/
def digitsToNat (ds : List Char) : Nat :=
  ds.foldl (fun n c => 10 * n + (c.toNat - 48)) 0

/-- A JS `number` as produced by `parseFloat`: `NaN`, positive
`Infinity`, or a numeric value (kept exact as a rational; the rounding
of in-range values to the nearest double is not modelled, but the
overflow to `Infinity` is). -/
inductive JSNumber where
  | nan
  | inf
  | num (q : Rat)
deriving DecidableEq, Repr

/-- The exact overflow threshold of IEEE-754 double rounding
(round-to-nearest, ties-to-even): a decimal value rounds to `Infinity`
iff it is at least `2^1024 - 2^970` (the midpoint above
`Number.MAX_VALUE = 2^1024 - 2^971`, about `1.798e308`). -/
def jsOverflowThreshold : Rat := 2 ^ 1024 - 2 ^ 970

/-- JS `parseFloat` on the token shapes reachable from the amount
capture group with commas removed (`\d*` then optionally `.` `\d*`,
trailing text ignored): `nan` when there is no leading digit and no
`.digit`; `inf` when the decimal value reaches the double overflow
threshold (a token of 309+ digits); otherwise the exact value. -/
def parseFloatQ (s : List Char) : JSNumber :=
  let intPart := s.takeWhile Char.isDigit
  match s.drop intPart.length with
  | '.' :: rest =>
      let fracPart := rest.takeWhile Char.isDigit
      if intPart = [] && fracPart = [] then JSNumber.nan
      else
        let v : Rat := (digitsToNat intPart : Rat)
          + (digitsToNat fracPart : Rat) / 10 ^ fracPart.length
        if jsOverflowThreshold ≤ v then JSNumber.inf else JSNumber.num v
  | _ =>
      if intPart = [] then JSNumber.nan
      else
        let v : Rat := (digitsToNat intPart : Rat)
        if jsOverflowThreshold ≤ v then JSNumber.inf else JSNumber.num v

/-- `String.prototype.includes`. -/
def strIncludes (hay needle : String) : Bool :=
  (List.range (hay.data.length + 1)).any fun i =>
    needle.data.isPrefixOf (hay.data.drop i)

/-- A JS `Date` value as constructed by the parser: either
`new Date(matchedText)` or `new Date()` at wall-clock instant `ms`. -/
inductive DateV where
  | ofString (s : String)
  | atNow (ms : Int)
deriving DecidableEq, Repr

/-- The `Partial<BankAlert>` object literal returned by `parseEmail`
(`amount` is a JS number that may be `NaN` or `Infinity` when it comes
from `parseFloat`). -/
structure ParsedAlert where
  amount : JSNumber
  currency : String
  accountNumber : String
  description : String
  transactionType : String
  timestamp : DateV
  rawEmail : String
  bank : String
deriving DecidableEq, Repr

/-- `BankAlertParser.parseEmail(email, bank)`; `now` is the injected
wall clock for the `new Date()` fallback. -/
def parseEmail (email : String) (bank : String) (now : Int) : ParsedAlert :=
  let patterns := (BANK_PATTERNS bank).getD gtbankPatterns
  let amountMatch := scanFirst patterns.amountPattern email.data
  let amount : JSNumber :=
    match amountMatch with
    | some g => parseFloatQ (g.filter fun c => c ≠ ',')
    | none => JSNumber.num 0
  let typeMatch := scanFirst patterns.typePattern email.data
  let transactionType :=
    match typeMatch with
    | some m =>
        if strIncludes (toLowerStr (String.mk m)) "debit"
            || strIncludes (toLowerStr (String.mk m)) "withdrawal"
        then "debit" else "credit"
    | none => "credit"
  let timeMatch := scanFirst patterns.timePattern email.data
  let timestamp :=
    match timeMatch with
    | some t => DateV.ofString (String.mk t)
    | none => DateV.atNow now
  let accountMatch := scanFirst patterns.accountPattern email.data
  let accountNumber := (accountMatch.map String.mk).getD ""
  let description := String.mk (email.data.take 200)
  { amount := amount
    currency := "NGN"
    accountNumber := accountNumber
    description := description
    transactionType := transactionType
    timestamp := timestamp
    rawEmail := email
    bank := bank }

/-- Property names a plain JS object literal inherits from
`Object.prototype` (the standard methods, the Annex B accessors, and
the `__proto__` accessor): for these, `BANK_PATTERNS[bank]` is not
`undefined` but a truthy value that is not a pattern profile. -/
def objectPrototypeKeys : List String :=
  ["constructor", "hasOwnProperty", "isPrototypeOf",
   "propertyIsEnumerable", "toLocaleString", "toString", "valueOf",
   "__defineGetter__", "__defineSetter__", "__lookupGetter__",
   "__lookupSetter__", "__proto__"]

/-- Outcome of the JS property access `BANK_PATTERNS[bank]`:
an own registered profile, a truthy non-profile inherited from
`Object.prototype`, or `undefined`. -/
inductive JsLookup where
  | profile (p : BankPatterns)
  | protoFn
  | undef

/-- `BANK_PATTERNS[bank]` with prototype-chain semantics: own
properties first, then the keys inherited from `Object.prototype`. -/
def jsBankPatternsLookup (bank : String) : JsLookup :=
  match BANK_PATTERNS bank with
  | some p => JsLookup.profile p
  | none =>
      if objectPrototypeKeys.contains bank then JsLookup.protoFn
      else JsLookup.undef

/-- `parseEmail` with the full JS lookup semantics of line 208
(`BANK_PATTERNS[bank] || BANK_PATTERNS.gtbank`): an inherited prototype
name is truthy, so the fallback is skipped, `patterns.amountPattern`
is `undefined`, `email.match(undefined)` matches the empty regex with
an undefined capture group, and `match[1].replace` throws a
`TypeError` (modelled `Except.error`).  Otherwise no exception is
possible and the result is `parseEmail`. -/
def parseEmailJS (email : String) (bank : String) (now : Int) :
    Except String ParsedAlert :=
  match jsBankPatternsLookup bank with
  | JsLookup.protoFn => Except.error "TypeError"
  | _ => Except.ok (parseEmail email bank now)

/-! ## Concrete fixtures used by witnesses -/

/-- A fully matching alert/candidate pair. -/
def alertA : BankAlert :=
  { id := "a1", timestamp := 0, amount := 1000, currency := "NGN",
    accountNumber := "****1234", description := "pos shop",
    transactionType := "debit", rawEmail := "", bank := "gtbank" }

/-- Candidate identical to `alertA` on every scored field. -/
def txnT1 : Transaction :=
  { id := "t1", timestamp := 0, amount := 1000, currency := "NGN",
    accountNumber := "****1234", description := "pos shop",
    status := "completed", source := "api" }

/-- Same scored fields as `txnT1`, different identifier (equal
confidence, used for stability). -/
def txnT2 : Transaction :=
  { id := "t2", timestamp := 0, amount := 1000, currency := "NGN",
    accountNumber := "****1234", description := "pos shop",
    status := "completed", source := "api" }

/-- An alert whose amount extraction failed (amount 0). -/
def alertZ : BankAlert :=
  { id := "a0", timestamp := 0, amount := 0, currency := "NGN",
    accountNumber := "", description := "", transactionType := "credit",
    rawEmail := "", bank := "gtbank" }

/-- Alert at amount 1000 for the tolerance boundary. -/
def alertC6 : BankAlert :=
  { id := "a6", timestamp := 0, amount := 1000, currency := "NGN",
    accountNumber := "x", description := "d", transactionType := "credit",
    rawEmail := "", bank := "gtbank" }

/-- Candidate at amount 1020 (ratio exactly 2%). -/
def txn1020 : Transaction :=
  { id := "t1020", timestamp := 0, amount := 1020, currency := "NGN",
    accountNumber := "y", description := "e", status := "completed",
    source := "api" }

/-- Candidate at amount 1021 (ratio 2.1%). -/
def txn1021 : Transaction :=
  { id := "t1021", timestamp := 0, amount := 1021, currency := "NGN",
    accountNumber := "y", description := "e", status := "completed",
    source := "api" }

/-- Candidate with an empty account identifier. -/
def txnE : Transaction :=
  { id := "te", timestamp := 10 ^ 9, amount := 77, currency := "NGN",
    accountNumber := "", description := "w", status := "pending",
    source := "api" }

/-! ## Helper lemmas: the single-row Levenshtein loop stays bounded -/

theorem levRowAux_length (c1 : Char) :
    ∀ (cs : List Char) (prev : List Nat) (last : Nat),
      cs.length ≤ prev.length →
      (levRowAux c1 cs prev last).length = cs.length + 1
  | [], _, _, _ => rfl
  | _ :: _, _ :: _, _, h => by
      simp only [levRowAux, List.length_cons]
      rw [levRowAux_length c1]
      simpa using h

theorem levRowAux_getD_le (c1 : Char) :
    ∀ (cs : List Char) (prev : List Nat) (last i t : Nat),
      prev.length = cs.length + 1 →
      (∀ k, k < prev.length → prev.getD k 0 ≤ max i (t + k)) →
      last ≤ max (i + 1) t →
      ∀ k, k < cs.length + 1 →
        (levRowAux c1 cs prev last).getD k 0 ≤ max (i + 1) (t + k)
  | [], _, last, i, t, _, _, hlast, k, hk => by
      have hk0 : k = 0 := by simp only [List.length_nil] at hk; omega
      subst hk0
      simpa using hlast
  | c2 :: cs, p0 :: rest, last, i, t, hlen, hprev, hlast, k, hk => by
      match k with
      | 0 => simpa [levRowAux] using hlast
      | k + 1 =>
        have hp0 : p0 ≤ max i t := by simpa using hprev 0 (by simp)
        have hnew : (if c1 = c2 then p0
            else min (min p0 last) (rest.headD 0) + 1) ≤ max (i + 1) (t + 1) := by
          split
          · exact hp0.trans (max_le_max (Nat.le_succ i) (Nat.le_succ t))
          · have : min (min p0 last) (rest.headD 0) ≤ p0 :=
              le_trans (min_le_left _ _) (min_le_left _ _)
            calc min (min p0 last) (rest.headD 0) + 1 ≤ p0 + 1 := by omega
              _ ≤ max i t + 1 := by omega
              _ = max (i + 1) (t + 1) := (Nat.succ_max_succ i t).symm
        have hrest : ∀ j, j < rest.length → rest.getD j 0 ≤ max i (t + 1 + j) := by
          intro j hj
          have := hprev (j + 1) (by simpa using Nat.succ_lt_succ hj)
          simpa [Nat.add_assoc, Nat.add_comm 1 j] using this
        have ih := levRowAux_getD_le c1 cs rest
          (if c1 = c2 then p0 else min (min p0 last) (rest.headD 0) + 1)
          i (t + 1) (by simpa using hlen) hrest hnew k
          (by simp only [List.length_cons] at hk; omega)
        simpa [levRowAux, Nat.add_assoc, Nat.add_comm 1 k] using ih

theorem levFold_getD_le (l2 : List Char) :
    ∀ (l1 : List Char) (prev : List Nat) (i : Nat),
      prev.length = l2.length + 1 →
      (∀ k, k < prev.length → prev.getD k 0 ≤ max i k) →
      (l1.foldl (fun prev c1 => levRowAux c1 l2 prev (prev.headD 0 + 1))
          prev).length = l2.length + 1 ∧
      ∀ k, k < l2.length + 1 →
        (l1.foldl (fun prev c1 => levRowAux c1 l2 prev (prev.headD 0 + 1))
            prev).getD k 0 ≤ max (i + l1.length) k
  | [], prev, i, hlen, hprev => by
      refine ⟨hlen, ?_⟩
      intro k hk
      simpa using hprev k (by omega)
  | c :: l1, prev, i, hlen, hprev => by
      have hne : prev ≠ [] := by
        intro h
        rw [h] at hlen
        simp at hlen
      have hhead : prev.headD 0 = prev.getD 0 0 := by
        cases prev with
        | nil => simp at hne
        | cons a l => rfl
      have hlast : prev.headD 0 + 1 ≤ max (i + 1) 0 := by
        have := hprev 0 (by omega)
        rw [hhead]
        simp only [Nat.max_zero] at this ⊢
        omega
      have hlen' : (levRowAux c l2 prev (prev.headD 0 + 1)).length
          = l2.length + 1 :=
        levRowAux_length c l2 prev _ (by omega)
      have hbound : ∀ k, k < (levRowAux c l2 prev (prev.headD 0 + 1)).length →
          (levRowAux c l2 prev (prev.headD 0 + 1)).getD k 0 ≤ max (i + 1) k := by
        intro k hk
        have := levRowAux_getD_le c l2 prev (prev.headD 0 + 1) i 0 hlen
          (by intro k hk; simpa using hprev k hk) hlast k (by omega)
        simpa using this
      have ih := levFold_getD_le l2 l1 (levRowAux c l2 prev (prev.headD 0 + 1))
        (i + 1) hlen' hbound
      refine ⟨by simpa using ih.1, ?_⟩
      intro k hk
      have := ih.2 k hk
      simpa [Nat.add_assoc, Nat.add_comm 1 l1.length] using this

theorem levenshteinDistance_le (s1 s2 : String)
    (h : s1.length ≤ s2.length) :
    levenshteinDistance s1 s2 ≤ s2.length := by
  have hr : ∀ k, k < (List.range (s2.data.length + 1)).length →
      (List.range (s2.data.length + 1)).getD k 0 ≤ max 0 k := by
    intro k hk
    rw [List.getD_eq_getElem _ _ (by simpa using hk)]
    simp
  have := levFold_getD_le s2.data s1.data (List.range (s2.data.length + 1)) 0
    (by simp) hr
  have hfin := this.2 s2.data.length (by omega)
  simp only [Nat.zero_add] at hfin
  have : max s1.data.length s2.data.length = s2.data.length := by
    have : s1.data.length ≤ s2.data.length := h
    omega
  rw [this] at hfin
  exact hfin

/-! ## Helper lemmas: similarity and confidence are in `[0, 1]` -/

theorem calculateSimilarity_mem (a b : String) :
    0 ≤ calculateSimilarity a b ∧ calculateSimilarity a b ≤ 1 := by
  by_cases h : trimStr (toLowerStr a) = trimStr (toLowerStr b)
  · simp [calculateSimilarity, h]
  · by_cases h1 : (trimStr (toLowerStr a)).length = 0
    · simp [calculateSimilarity, h, h1]
    · by_cases h2 : (trimStr (toLowerStr b)).length = 0
      · simp [calculateSimilarity, h, h1, h2]
      · simp only [calculateSimilarity, if_neg h,
          if_neg (not_or.mpr ⟨h1, h2⟩)]
        by_cases h3 : (trimStr (toLowerStr a)).length > (trimStr (toLowerStr b)).length
        · simp only [if_pos h3]
          have hd := levenshteinDistance_le (trimStr (toLowerStr b)) (trimStr (toLowerStr a))
            (le_of_lt h3)
          have hdq : (levenshteinDistance (trimStr (toLowerStr b)) (trimStr (toLowerStr a)) : Rat)
              ≤ ((trimStr (toLowerStr a)).length : Rat) := by exact_mod_cast hd
          have hpos : (0 : Rat) < ((trimStr (toLowerStr a)).length : Rat) := by
            exact_mod_cast Nat.pos_of_ne_zero h1
          constructor
          · apply div_nonneg _ (le_of_lt hpos)
            linarith
          · rw [div_le_one hpos]
            have : (0 : Rat) ≤
                (levenshteinDistance (trimStr (toLowerStr b)) (trimStr (toLowerStr a)) : Rat) :=
              Nat.cast_nonneg _
            linarith
        · simp only [if_neg h3]
          have hle : (trimStr (toLowerStr a)).length ≤ (trimStr (toLowerStr b)).length := by
            omega
          have hd := levenshteinDistance_le (trimStr (toLowerStr a)) (trimStr (toLowerStr b)) hle
          have hdq : (levenshteinDistance (trimStr (toLowerStr a)) (trimStr (toLowerStr b)) : Rat)
              ≤ ((trimStr (toLowerStr b)).length : Rat) := by exact_mod_cast hd
          have hpos : (0 : Rat) < ((trimStr (toLowerStr b)).length : Rat) := by
            exact_mod_cast Nat.pos_of_ne_zero h2
          constructor
          · apply div_nonneg _ (le_of_lt hpos)
            linarith
          · rw [div_le_one hpos]
            have : (0 : Rat) ≤
                (levenshteinDistance (trimStr (toLowerStr a)) (trimStr (toLowerStr b)) : Rat) :=
              Nat.cast_nonneg _
            linarith

theorem confidence_nonneg (alert : BankAlert) (txn : Transaction) :
    0 ≤ confidence alert txn := by
  have hs := (calculateSimilarity_mem alert.description txn.description).1
  have t1 : (0 : Rat) ≤ if amountMatches alert txn then (0.4 : Rat) else 0 := by
    split <;> norm_num
  have t2 : (0 : Rat) ≤ if accountMatches alert txn then (0.3 : Rat) else 0 := by
    split <;> norm_num
  have t3 : (0 : Rat) ≤ if isWithinTimeWindow alert txn then (0.2 : Rat) else 0 := by
    split <;> norm_num
  have t4 : (0 : Rat) ≤
      calculateSimilarity alert.description txn.description * 0.1 :=
    mul_nonneg hs (by norm_num)
  unfold confidence
  linarith

theorem confidence_le_one (alert : BankAlert) (txn : Transaction) :
    confidence alert txn ≤ 1 := by
  have hs := (calculateSimilarity_mem alert.description txn.description).2
  have t1 : (if amountMatches alert txn then (0.4 : Rat) else 0) ≤ 0.4 := by
    split <;> norm_num
  have t2 : (if accountMatches alert txn then (0.3 : Rat) else 0) ≤ 0.3 := by
    split <;> norm_num
  have t3 : (if isWithinTimeWindow alert txn then (0.2 : Rat) else 0) ≤ 0.2 := by
    split <;> norm_num
  have t4 : calculateSimilarity alert.description txn.description * 0.1
      ≤ 0.1 := by
    calc calculateSimilarity alert.description txn.description * 0.1
        ≤ 1 * 0.1 := by
          apply mul_le_mul_of_nonneg_right hs
          norm_num
      _ = 0.1 := by norm_num
  unfold confidence
  linarith

/-! ## Claim theorems -/

/-- C2: a `MatchResult` produced by `scoreMatch` has `matched = true`
exactly when its confidence reaches the threshold
`MIN_CONFIDENCE_THRESHOLD = 0.6`; when matched the candidate's
identifier is attached, otherwise `transactionId` is null. -/
theorem scoreMatch_matched_iff (alert : BankAlert) (txn : Transaction)
    (r : MatchResult) (hr : r = scoreMatch alert txn) :
    MIN_CONFIDENCE_THRESHOLD = 0.6
    ∧ (r.matched = true ↔ MIN_CONFIDENCE_THRESHOLD ≤ r.confidence)
    ∧ (r.matched = true → r.transactionId = some txn.id)
    ∧ (r.matched = false → r.transactionId = none) := by
  subst hr
  refine ⟨rfl, ?_, ?_, ?_⟩
  · simp [scoreMatch, ge_iff_le]
  · intro hm
    simp only [scoreMatch, decide_eq_true_eq] at hm
    simp [scoreMatch, hm]
  · intro hm
    simp only [scoreMatch, decide_eq_false_iff_not] at hm
    simp [scoreMatch, hm]

/-- Witness for C2 at the concrete pair `alertA`/`txnT1`. -/
theorem scoreMatch_matched_iff_witness :
    (scoreMatch alertA txnT1).matched = true
    ∧ (scoreMatch alertA txnT1).transactionId = some "t1" := by
  have hsim : calculateSimilarity alertA.description txnT1.description = 1 := by
    simp [alertA, txnT1, calculateSimilarity]
  have hconf : confidence alertA txnT1 = 1 := by
    have h1 : amountMatches alertA txnT1 = true := by
      simp only [amountMatches, amountDiffPercent, amountDiff, alertA,
        txnT1, AMOUNT_TOLERANCE, decide_eq_true_eq]
      norm_num
    have h2 : accountMatches alertA txnT1 = true := by decide
    have h3 : isWithinTimeWindow alertA txnT1 = true := by decide
    rw [confidence, h1, h2, h3, hsim]
    norm_num
  have hm : (scoreMatch alertA txnT1).matched = true := by
    have := (scoreMatch_matched_iff alertA txnT1 _ rfl).2.1
    apply this.mpr
    rw [show (scoreMatch alertA txnT1).confidence = confidence alertA txnT1
      from rfl, hconf, MIN_CONFIDENCE_THRESHOLD]
    norm_num
  exact ⟨hm, (scoreMatch_matched_iff alertA txnT1 _ rfl).2.2.1 hm⟩

/-- C5: when the alert amount is 0 the ratio guard takes the `: 0`
branch, so the amount factor passes and contributes its `0.4` weight no
matter what the candidate amount is. -/
theorem zero_amount_alert_amount_factor (alert : BankAlert)
    (txn : Transaction) (h : alert.amount = 0) :
    amountDiffPercent alert txn = 0
    ∧ amountMatches alert txn = true
    ∧ (scoreMatch alert txn).matchDetails.amountMatch = true
    ∧ confidence alert txn
      = 0.4 + (if accountMatches alert txn then (0.3 : Rat) else 0)
        + (if isWithinTimeWindow alert txn then (0.2 : Rat) else 0)
        + calculateSimilarity alert.description txn.description * 0.1 := by
  have hp : amountDiffPercent alert txn = 0 := by
    rw [amountDiffPercent, h]
    norm_num
  have hm : amountMatches alert txn = true := by
    rw [amountMatches, hp, AMOUNT_TOLERANCE]
    norm_num
  refine ⟨hp, hm, ?_, ?_⟩
  · simpa [scoreMatch] using hm
  · rw [confidence, hm]
    simp

/-- Witness for C5: zero-amount alert against a 1000-amount
candidate. -/
theorem zero_amount_alert_amount_factor_witness :
    amountMatches alertZ txnT1 = true :=
  (zero_amount_alert_amount_factor alertZ txnT1 rfl).2.1

/-- C6: the amount-tolerance boundary is inclusive: at alert amount
1000 a candidate amount 1020 sits exactly at the 2% tolerance and
passes (`≤`), while 1021 fails. -/
theorem amount_tolerance_boundary :
    AMOUNT_TOLERANCE = 0.02
    ∧ amountDiffPercent alertC6 txn1020 = AMOUNT_TOLERANCE
    ∧ amountMatches alertC6 txn1020 = true
    ∧ amountMatches alertC6 txn1021 = false := by
  have h20 : amountDiffPercent alertC6 txn1020 = AMOUNT_TOLERANCE := by
    rw [amountDiffPercent, amountDiff, AMOUNT_TOLERANCE]
    norm_num [alertC6, txn1020]
  refine ⟨rfl, h20, ?_, ?_⟩
  · rw [amountMatches, h20]
    simp
  · rw [amountMatches]
    have h21 : amountDiffPercent alertC6 txn1021 = 21 / 1000 := by
      rw [amountDiffPercent, amountDiff]
      norm_num [alertC6, txn1021]
    rw [h21, AMOUNT_TOLERANCE]
    norm_num

/-- C7: `similarity(s, s) = 1` for every string; an empty side scores
0; `similarity("abc", "abd")` is strictly between 0 and 1. -/
theorem calculateSimilarity_properties :
    (∀ s : String, calculateSimilarity s s = 1)
    ∧ calculateSimilarity "" "nonempty" = 0
    ∧ 0 < calculateSimilarity "abc" "abd"
    ∧ calculateSimilarity "abc" "abd" < 1 := by
  have habc : calculateSimilarity "abc" "abd"
      = ((3 : Rat) - 1) / 3 := by
    have e1 : trimStr (toLowerStr "abc") = "abc" := by decide
    have e2 : trimStr (toLowerStr "abd") = "abd" := by decide
    simp only [calculateSimilarity, e1, e2]
    rw [if_neg (by decide), if_neg (by decide), if_neg (by decide),
      if_neg (by decide)]
    rw [show levenshteinDistance "abc" "abd" = 1 from by decide,
      show ("abd" : String).length = 3 from by decide]
    norm_num
  refine ⟨?_, by decide, ?_, ?_⟩
  · intro s
    simp [calculateSimilarity]
  · rw [habc]; norm_num
  · rw [habc]; norm_num

/-- Witness for C7's universally quantified part, at `s = "telex"`. -/
theorem calculateSimilarity_properties_witness :
    calculateSimilarity "telex" "telex" = 1 :=
  calculateSimilarity_properties.1 "telex"

/-- C10: the account factor is plain string equality with no emptiness
guard: two empty account identifiers pass it, and the full `0.3` weight
enters the confidence sum. -/
theorem empty_accounts_match (alert : BankAlert) (txn : Transaction)
    (h1 : alert.accountNumber = "") (h2 : txn.accountNumber = "") :
    accountMatches alert txn = true
    ∧ confidence alert txn
      = (if amountMatches alert txn then (0.4 : Rat) else 0) + 0.3
        + (if isWithinTimeWindow alert txn then (0.2 : Rat) else 0)
        + calculateSimilarity alert.description txn.description * 0.1
    ∧ 0.3 ≤ confidence alert txn := by
  have ha : accountMatches alert txn = true := by
    rw [accountMatches, h1, h2]
    simp
  have hc : confidence alert txn
      = (if amountMatches alert txn then (0.4 : Rat) else 0) + 0.3
        + (if isWithinTimeWindow alert txn then (0.2 : Rat) else 0)
        + calculateSimilarity alert.description txn.description * 0.1 := by
    rw [confidence, ha]
    simp
  refine ⟨ha, hc, ?_⟩
  have t1 : (0 : Rat) ≤ if amountMatches alert txn then (0.4 : Rat) else 0 := by
    split <;> norm_num
  have t3 : (0 : Rat) ≤ if isWithinTimeWindow alert txn then (0.2 : Rat) else 0 := by
    split <;> norm_num
  have t4 : (0 : Rat) ≤
      calculateSimilarity alert.description txn.description * 0.1 :=
    mul_nonneg (calculateSimilarity_mem alert.description txn.description).1
      (by norm_num)
  linarith [hc]

/-- Witness for C10: `alertZ` and `txnE` both carry the empty account
string. -/
theorem empty_accounts_match_witness :
    accountMatches alertZ txnE = true :=
  (empty_accounts_match alertZ txnE rfl rfl).1

/-- C3: `findMatches` returns one result per candidate, none omitted,
and every confidence lies in `[0, 1]`. -/
theorem findMatches_complete_and_bounded (alert : BankAlert)
    (txns : List Transaction) :
    (findMatches alert txns).length = txns.length
    ∧ (findMatches alert txns).Perm
        (txns.map fun txn => scoreMatch alert txn)
    ∧ ∀ r ∈ findMatches alert txns,
        0 ≤ r.confidence ∧ r.confidence ≤ 1 := by
  refine ⟨?_, ?_, ?_⟩
  · simp [findMatches]
  · rw [findMatches]
    exact List.mergeSort_perm _ _
  · intro r hr
    rw [findMatches, List.mem_mergeSort] at hr
    obtain ⟨txn, -, rfl⟩ := List.mem_map.mp hr
    exact ⟨confidence_nonneg alert txn, confidence_le_one alert txn⟩

/-- Witness for C3 on a one-candidate list. -/
theorem findMatches_complete_and_bounded_witness :
    (findMatches alertA [txnT1]).length = 1
    ∧ (0 ≤ (scoreMatch alertA txnT1).confidence
       ∧ (scoreMatch alertA txnT1).confidence ≤ 1) :=
  ⟨(findMatches_complete_and_bounded alertA [txnT1]).1,
    (findMatches_complete_and_bounded alertA [txnT1]).2.2 _
      (by rw [findMatches, List.mem_mergeSort]; simp)⟩

/-- C4: the result sequence is non-increasing by confidence, the sort
is stable (two results appearing in candidate order with equal
confidence keep that order), and the head result carries the maximal
confidence even when nothing clears the threshold. -/
theorem findMatches_sorted_stable (alert : BankAlert)
    (txns : List Transaction) :
    ((findMatches alert txns).Pairwise fun a b =>
      b.confidence ≤ a.confidence)
    ∧ (∀ a b : MatchResult,
        List.Sublist [a, b] (txns.map (fun txn => scoreMatch alert txn)) →
        a.confidence = b.confidence →
        List.Sublist [a, b] (findMatches alert txns))
    ∧ ∀ hne : findMatches alert txns ≠ [],
        ∀ r ∈ findMatches alert txns,
          r.confidence ≤ ((findMatches alert txns).head hne).confidence := by
  have trans : ∀ a b c : MatchResult,
      (decide (b.confidence ≤ a.confidence))
        → (decide (c.confidence ≤ b.confidence))
        → (decide (c.confidence ≤ a.confidence)) := by
    intro a b c h1 h2
    simp only [decide_eq_true_eq] at h1 h2 ⊢
    exact le_trans h2 h1
  have total : ∀ a b : MatchResult,
      (decide (b.confidence ≤ a.confidence)
        || decide (a.confidence ≤ b.confidence)) = true := by
    intro a b
    simp only [Bool.or_eq_true, decide_eq_true_eq]
    exact le_total _ _
  have hsorted : (findMatches alert txns).Pairwise fun a b =>
      b.confidence ≤ a.confidence := by
    have h := List.sorted_mergeSort trans total
      (txns.map (fun txn => scoreMatch alert txn))
    rw [findMatches]
    exact h.imp fun hab => of_decide_eq_true hab
  refine ⟨hsorted, ?_, ?_⟩
  · intro a b hsub heq
    rw [findMatches]
    apply List.pair_sublist_mergeSort trans total _ hsub
    simp only [decide_eq_true_eq, heq, le_refl]
  · intro hne r hr
    obtain ⟨x, xs, hl⟩ : ∃ x xs, findMatches alert txns = x :: xs := by
      cases h : findMatches alert txns with
      | nil => exact absurd h hne
      | cons x xs => exact ⟨x, xs, rfl⟩
    have hhead : (findMatches alert txns).head hne = x := by
      simp only [hl, List.head_cons]
    rw [hhead]
    rw [hl] at hsorted hr
    rcases List.mem_cons.mp hr with rfl | hmem
    · exact le_refl _
    · exact (List.pairwise_cons.mp hsorted).1 r hmem

/-- Witness for C4: two candidates with identical scored fields give
equal confidence; their results keep input order, and the head bound
holds at the first result. -/
theorem findMatches_sorted_stable_witness :
    List.Sublist [scoreMatch alertA txnT1, scoreMatch alertA txnT2]
      (findMatches alertA [txnT1, txnT2])
    ∧ ∀ hne : findMatches alertA [txnT1, txnT2] ≠ [],
        (scoreMatch alertA txnT1).confidence
          ≤ ((findMatches alertA [txnT1, txnT2]).head hne).confidence := by
  have hstable := (findMatches_sorted_stable alertA [txnT1, txnT2]).2.1
    (scoreMatch alertA txnT1) (scoreMatch alertA txnT2)
    (List.Sublist.refl _) rfl
  refine ⟨hstable, fun hne => ?_⟩
  apply (findMatches_sorted_stable alertA [txnT1, txnT2]).2.2 hne
  exact (List.Sublist.subset hstable) (by simp)

/-- `parseFloat` never yields a negative numeric value on the
reachable token shapes: a parsed finite amount is a sum of casts of
naturals. -/
theorem parseFloatQ_nonneg (s : List Char) :
    ∀ q : Rat, parseFloatQ s = JSNumber.num q → 0 ≤ q := by
  intro q h
  simp only [parseFloatQ] at h
  split at h
  · split at h
    · exact absurd h (by simp)
    · split at h
      · exact absurd h (by simp)
      · rw [JSNumber.num.injEq] at h
        rw [← h]
        positivity
  · split at h
    · exact absurd h (by simp)
    · split at h
      · exact absurd h (by simp)
      · rw [JSNumber.num.injEq] at h
        rw [← h]
        positivity

set_option maxRecDepth 8000 in
/-- A 310-digit token overflows `parseFloat` to `Infinity`: the value
`10^310 - 1` exceeds the double overflow threshold `2^1024 - 2^970`. -/
theorem parseFloatQ_replicate_nines :
    parseFloatQ (List.replicate 310 '9') = JSNumber.inf := by
  have htake : (List.replicate 310 '9').takeWhile Char.isDigit
      = List.replicate 310 '9' := by decide
  have hle : (2 : Nat) ^ 970 ≤ 2 ^ 1024 :=
    Nat.pow_le_pow_right (by norm_num) (by norm_num)
  have hnat : (2 : Nat) ^ 1024 - 2 ^ 970
      ≤ digitsToNat (List.replicate 310 '9') := by decide
  have hth : jsOverflowThreshold
      ≤ (digitsToNat (List.replicate 310 '9') : Rat) := by
    have hq := (Nat.cast_le (α := Rat)).mpr hnat
    rw [Nat.cast_sub hle] at hq
    push_cast at hq
    rw [jsOverflowThreshold]
    exact hq
  simp only [parseFloatQ, htake]
  rw [show (List.replicate 310 '9').drop
      (List.replicate 310 '9').length = ([] : List Char) from by decide]
  rw [if_neg (by decide : ¬(List.replicate 310 '9' = []))]
  rw [if_pos hth]

set_option maxRecDepth 8000 in
/-- C1 counterexample: on `"Amount: ,"` the gtbank amount pattern
matches with captured token `","`; stripping commas leaves the empty
string and `parseFloat("")` is `NaN` — and on `"Amount: "` followed by
310 nines the matched token overflows `parseFloat` to `Infinity`.  In
both cases the produced amount is neither 0 nor a finite non-negative
number, so the claimed invariant fails. -/
theorem parseEmail_amount_nan_counterexample :
    (parseEmail "Amount: ," "gtbank" 0).amount = JSNumber.nan
    ∧ (parseEmail ("Amount: " ++ String.mk (List.replicate 310 '9'))
        "gtbank" 0).amount = JSNumber.inf := by
  constructor
  · decide
  · have hm : scanFirst
        ((BANK_PATTERNS "gtbank").getD gtbankPatterns).amountPattern
        ("Amount: " ++ String.mk (List.replicate 310 '9')).data
        = some (List.replicate 310 '9') := by decide
    have hf : List.filter (fun c => decide (c ≠ ','))
        (List.replicate 310 '9') = List.replicate 310 '9' := by decide
    simp only [parseEmail, hm]
    rw [hf]
    exact parseFloatQ_replicate_nines

/-- C1 amended: the amount is `0` whenever the amount pattern does not
match, and any finite numeric amount that is produced is non-negative;
but a matched token with no digits (e.g. only commas) gives `NaN`, and
a matched token whose decimal value reaches the double overflow
threshold `2^1024 - 2^970` (309+ digits) gives `Infinity`, so the
amount is not always a finite number. -/
theorem parseEmail_amount_default (email bank : String) (now : Int) :
    (scanFirst ((BANK_PATTERNS bank).getD gtbankPatterns).amountPattern
        email.data = none →
      (parseEmail email bank now).amount = JSNumber.num 0)
    ∧ ∀ q : Rat,
        (parseEmail email bank now).amount = JSNumber.num q → 0 ≤ q := by
  constructor
  · intro h
    simp [parseEmail, h]
  · intro q hq
    simp only [parseEmail] at hq
    cases hsc : scanFirst ((BANK_PATTERNS bank).getD gtbankPatterns).amountPattern
        email.data with
    | none =>
        rw [hsc] at hq
        rw [JSNumber.num.injEq] at hq
        rw [← hq]
    | some g =>
        rw [hsc] at hq
        exact parseFloatQ_nonneg _ q hq

/-- Witness for C1's amended claim on an input with no amount marker. -/
theorem parseEmail_amount_default_witness :
    (parseEmail "hello" "gtbank" 0).amount = JSNumber.num 0
    ∧ (0 : Rat) ≤ 0 := by
  have h1 := (parseEmail_amount_default "hello" "gtbank" 0).1 (by decide)
  exact ⟨h1, (parseEmail_amount_default "hello" "gtbank" 0).2 0 h1⟩

/-- C8 counterexample: the parsed record echoes the requested format
name in its `bank` field, so for the unknown name `"zenith"` the
result is not equal to the result of parsing under the default
profile; and for the unregistered name `"toString"` the
`BANK_PATTERNS[bank]` lookup finds a truthy inherited non-profile and
`parseEmail` throws a `TypeError` instead of falling back. -/
theorem parseEmail_unknown_format_ne :
    parseEmail "" "zenith" 0 ≠ parseEmail "" "gtbank" 0
    ∧ parseEmailJS "" "toString" 0 = Except.error "TypeError" := by
  constructor
  · decide
  · rfl

/-- C8 amended: for a format name that is neither a registered profile
nor a property name inherited from `Object.prototype`, `parseEmail`
does not raise and every field of the result agrees with parsing under
the default profile `gtbank`, except the `bank` field, which echoes
the requested name; for an inherited prototype name (e.g.
`"toString"`) the lookup yields a truthy non-profile and `parseEmail`
throws a `TypeError`. -/
theorem parseEmail_unknown_format_fallback (email bank : String)
    (now : Int) (h1 : bank ≠ "gtbank") (h2 : bank ≠ "access")
    (h3 : bank ≠ "firstbank") :
    (objectPrototypeKeys.contains bank = true →
      parseEmailJS email bank now = Except.error "TypeError")
    ∧ (objectPrototypeKeys.contains bank = false →
      parseEmailJS email bank now = Except.ok (parseEmail email bank now)
      ∧ (parseEmail email bank now).amount
        = (parseEmail email "gtbank" now).amount
      ∧ (parseEmail email bank now).currency
        = (parseEmail email "gtbank" now).currency
      ∧ (parseEmail email bank now).accountNumber
        = (parseEmail email "gtbank" now).accountNumber
      ∧ (parseEmail email bank now).description
        = (parseEmail email "gtbank" now).description
      ∧ (parseEmail email bank now).transactionType
        = (parseEmail email "gtbank" now).transactionType
      ∧ (parseEmail email bank now).timestamp
        = (parseEmail email "gtbank" now).timestamp
      ∧ (parseEmail email bank now).rawEmail
        = (parseEmail email "gtbank" now).rawEmail
      ∧ (parseEmail email bank now).bank = bank) := by
  have hp : BANK_PATTERNS bank = none := by
    simp [BANK_PATTERNS, h1, h2, h3]
  have hg : BANK_PATTERNS "gtbank" = some gtbankPatterns := rfl
  constructor
  · intro hk
    have hk' : bank ∈ objectPrototypeKeys := by simpa using hk
    simp [parseEmailJS, jsBankPatternsLookup, hp, hk']
  · intro hk
    have hk' : bank ∉ objectPrototypeKeys := by simpa using hk
    refine ⟨by simp [parseEmailJS, jsBankPatternsLookup, hp, hk'],
      ?_, rfl, ?_, rfl, ?_, ?_, rfl, rfl⟩ <;>
      simp [parseEmail, hp, hg]

/-- Witness for C8's amended claim: the prototype name `"toString"`
raises, the plain unregistered name `"zenith"` falls back with the
`bank` field echoed. -/
theorem parseEmail_unknown_format_fallback_witness :
    parseEmailJS "x" "toString" 7 = Except.error "TypeError"
    ∧ parseEmailJS "x" "zenith" 7 = Except.ok (parseEmail "x" "zenith" 7)
    ∧ (parseEmail "x" "zenith" 7).amount
      = (parseEmail "x" "gtbank" 7).amount
    ∧ (parseEmail "x" "zenith" 7).bank = "zenith" :=
  ⟨(parseEmail_unknown_format_fallback "x" "toString" 7 (by decide)
      (by decide) (by decide)).1 (by decide),
   ((parseEmail_unknown_format_fallback "x" "zenith" 7 (by decide)
      (by decide) (by decide)).2 (by decide)).1,
   ((parseEmail_unknown_format_fallback "x" "zenith" 7 (by decide)
      (by decide) (by decide)).2 (by decide)).2.1,
   ((parseEmail_unknown_format_fallback "x" "zenith" 7 (by decide)
      (by decide) (by decide)).2 (by decide)).2.2.2.2.2.2.2.2⟩

/-- C9: the extracted direction is `debit` exactly when the first
keyword matched by the profile's type pattern contains `debit` or
`withdrawal` after lowercasing; in every other case — including no
keyword at all — it is `credit`. -/
theorem parseEmail_direction (email bank : String) (now : Int) :
    ((parseEmail email bank now).transactionType = "debit"
      ↔ ∃ m, scanFirst ((BANK_PATTERNS bank).getD gtbankPatterns).typePattern
            email.data = some m
          ∧ (strIncludes (toLowerStr (String.mk m)) "debit" = true
             ∨ strIncludes (toLowerStr (String.mk m)) "withdrawal" = true))
    ∧ ((parseEmail email bank now).transactionType = "debit"
       ∨ (parseEmail email bank now).transactionType = "credit") := by
  cases hm : scanFirst ((BANK_PATTERNS bank).getD gtbankPatterns).typePattern
      email.data with
  | none =>
      have ht : (parseEmail email bank now).transactionType = "credit" := by
        simp [parseEmail, hm]
      constructor
      · constructor
        · intro hd
          rw [ht] at hd
          exact absurd hd (by decide)
        · rintro ⟨m, hms, -⟩
          exact absurd hms (by simp)
      · exact Or.inr ht
  | some m =>
      by_cases hinc : (strIncludes (toLowerStr (String.mk m)) "debit"
          || strIncludes (toLowerStr (String.mk m)) "withdrawal") = true
      · have ht : (parseEmail email bank now).transactionType = "debit" := by
          simp [parseEmail, hm, hinc]
        refine ⟨⟨fun _ => ⟨m, rfl, ?_⟩, fun _ => ht⟩, Or.inl ht⟩
        simpa [Bool.or_eq_true] using hinc
      · have ht : (parseEmail email bank now).transactionType = "credit" := by
          simp only [Bool.not_eq_true] at hinc
          simp [parseEmail, hm, hinc]
        refine ⟨⟨fun hd => ?_, fun hex => ?_⟩, Or.inr ht⟩
        · rw [ht] at hd
          exact absurd hd (by decide)
        · obtain ⟨m', hms, hor⟩ := hex
          obtain rfl : m = m' := Option.some_inj.mp hms
          simp only [Bool.not_eq_true, Bool.or_eq_false_iff] at hinc
          rcases hor with h | h
          · rw [hinc.1] at h
            exact absurd h (by decide)
          · rw [hinc.2] at h
            exact absurd h (by decide)

/-- Witness for C9: a text whose first matched keyword is
`WITHDRAWAL` is classified `debit`. -/
theorem parseEmail_direction_witness :
    (parseEmail "a WITHDRAWAL of cash" "gtbank" 0).transactionType
      = "debit" :=
  (parseEmail_direction "a WITHDRAWAL of cash" "gtbank" 0).1.mpr
    ⟨"WITHDRAWAL".data, by decide, Or.inr (by decide)⟩

end BankAgent
